import Mathlib

/-!
Shallow embedding of the MCQ generation-and-validation pipeline of the
`quizzer` repository (files `scripts/validate.py`, `scripts/generate_mcqs_hf.py`,
`scripts/generate_mcqs_api.py`), together with theorems settling the claims
about it.

Python's loosely-typed values (as produced by `json.loads` and used in the MCQ
dictionaries) are modelled by the inductive `Value`; Python dictionaries are
modelled by association lists (Python dict keys are unique, so first-match
lookup agrees with dict lookup).  Python string builtins used by the scripts
(`strip`, `split`, `isalpha`, `find`, `rfind`, slicing, `startswith`,
`endswith`, `int(...)`) are embedded as executable functions on Lean strings;
whitespace and alphabetic character classes use Lean's ASCII-level `Char`
predicates, which agree with Python's on the ASCII range.
-/

namespace Quizzer

/-- Python values: strings, integers, booleans, `None`, lists and (string-keyed)
dictionaries.  This is the shape of everything `json.loads` can produce that the
scripts consult (floats never reach any decision point of the embedded code). -/
inductive Value where
  | str (s : String)
  | int (n : Int)
  | bool (b : Bool)
  | null
  | list (elems : List Value)
  | dict (entries : List (String × Value))

/-- A Python dictionary holding one MCQ record, as consumed by the validator:
an association list from field name to value. -/
def Mcq : Type := List (String × Value)

/-- Python `==` between an arbitrary value and a string literal (used for the
membership test `mcq['correct_answer'] in ['A','B','C','D']`): true exactly for
an equal string. -/
def pyEqStr (v : Value) (s : String) : Bool :=
  match v with
  | .str t => t == s
  | _ => false

/-- `l` with leading and trailing whitespace removed: the char-list version of
Python's `str.strip()`. -/
def pyStripData (l : List Char) : List Char :=
  ((l.dropWhile Char.isWhitespace).reverse.dropWhile Char.isWhitespace).reverse

/-- Python `str.strip()`. -/
def pyStrip (s : String) : String := ⟨pyStripData s.data⟩

/-- Helper for `pySplit`: walks the character list, `cur` holds the current
word reversed. -/
def pySplitAux : List Char → List Char → List String
  | [], cur => if cur.isEmpty then [] else [⟨cur.reverse⟩]
  | c :: cs, cur =>
    if c.isWhitespace then
      if cur.isEmpty then pySplitAux cs [] else (⟨cur.reverse⟩ : String) :: pySplitAux cs []
    else pySplitAux cs (c :: cur)

/-- Python `str.split()` with no argument: split on runs of whitespace,
discarding empty pieces. -/
def pySplit (s : String) : List String := pySplitAux s.data []

/-- Python `str.isalpha()`: nonempty and every character alphabetic. -/
def pyIsAlpha (s : String) : Bool := !s.data.isEmpty && s.data.all Char.isAlpha

/-- Value of a nonempty all-digit character list, used by `pyInt`. -/
def decDigits? (l : List Char) : Option Nat :=
  if l.isEmpty || !l.all Char.isDigit then none
  else some (l.foldl (fun a c => 10 * a + (c.toNat - 48)) 0)

/-- Python `int(s)` on a decimal string: surrounding whitespace is allowed, an
optional single sign, then at least one digit; anything else raises
`ValueError`, modelled as `none`. -/
def pyInt (s : String) : Option Int :=
  match pyStripData s.data with
  | '+' :: ds => (decDigits? ds).map Int.ofNat
  | '-' :: ds => (decDigits? ds).map (fun n => -(n : Int))
  | ds => (decDigits? ds).map Int.ofNat

/-- Python `c in s` for a single character. -/
def pyContainsChar (s : String) (c : Char) : Bool := s.data.contains c

/-- Python `s.find(c)` for a character known to occur (the scripts only use the
result under an `in` guard, so the not-found value -1 is never consulted). -/
def pyFindIdx (s : String) (c : Char) : Nat := s.data.findIdx (· == c)

/-- Python `s.rfind(c)` for a character known to occur. -/
def pyRFindIdx (s : String) (c : Char) : Nat :=
  s.data.length - 1 - s.data.reverse.findIdx (· == c)

/-- Python slicing `s[a:b]` for `0 ≤ a ≤ b`. -/
def pySlice (s : String) (a b : Nat) : String := ⟨(s.data.drop a).take (b - a)⟩

/-- Python `s.startswith(p)`. -/
def pyStartsWith (s p : String) : Bool := decide (s.data.take p.data.length = p.data)

/-- Python `s.endswith(p)`. -/
def pyEndsWith (s p : String) : Bool :=
  decide (s.data.reverse.take p.data.length = p.data.reverse)

end Quizzer

namespace Quizzer

/-! ## `scripts/generate_mcqs_hf.py` — fallback generator -/

/-- One templated fallback MCQ for the keyword `word`
(`create_fallback_mcqs`, loop body). -/
def fallbackMcq (word : String) : Mcq :=
  [("question", .str ("What is the main topic related to '" ++ word ++ "' in the text?")),
   ("options", .list
      [.str ("A) " ++ word ++ " is a key concept"),
       .str ("B) " ++ word ++ " is mentioned briefly"),
       .str ("C) " ++ word ++ " is not important"),
       .str ("D) " ++ word ++ " is undefined")]),
   ("correct_answer", .str "A"),
   ("explanation", .str ("The text discusses " ++ word ++ " as an important concept."))]

/-- `important_words` of `create_fallback_mcqs`: whitespace tokens of the text
that are longer than 5 characters and purely alphabetic, first 10 kept. -/
def important_words (text : String) : List String :=
  ((pySplit text).filter (fun w => decide (w.length > 5) && pyIsAlpha w)).take 10

/-- `create_fallback_mcqs(text, difficulty, num_questions)`: up to
`min(num_questions, 3)` templated MCQs, one per important word (the loop
`for i in range(min(num_questions, 3)): if i < len(important_words): ...`).
The `difficulty` argument is taken but, as in the source, unused. -/
def create_fallback_mcqs (text difficulty : String) (num_questions : Int) : List Mcq :=
  let words := important_words text
  (List.range (min num_questions 3).toNat).filterMap (fun i =>
    if h : i < words.length then some (fallbackMcq (words.get ⟨i, h⟩)) else none)

/-! ## `scripts/validate.py` — `MCQValidator` -/

/-- `mcq[field]` under the guarantee (established by the required-fields pass)
that the field is present; the `Value.null` default is never consulted on the
paths the code reaches. -/
def getField (mcq : Mcq) (field : String) : Value :=
  (List.lookup field mcq).getD Value.null

/-- The `required_fields` list of `validate_mcq_structure`. -/
def required_fields : List String := ["question", "options", "correct_answer", "explanation"]

/-- Option loop of `validate_mcq_structure`: `for i, option in enumerate(...)`,
one error per option that is not a string of at least 3 stripped characters. -/
def optionItemErrors : Nat → List Value → List String
  | _, [] => []
  | i, v :: rest =>
    (match v with
     | .str s =>
       if (pyStripData s.data).length < 3 then
         ["Option " ++ toString (i + 1) ++ " must be a non-empty string with at least 3 characters"]
       else []
     | _ => ["Option " ++ toString (i + 1) ++ " must be a non-empty string with at least 3 characters"])
      ++ optionItemErrors (i + 1) rest

/-- `MCQValidator.validate_mcq_structure(mcq)`: the ordered error list for one
MCQ record.  Missing required fields short-circuit; otherwise the question,
options, correct-answer and explanation checks run in order. -/
def validate_mcq_structure (mcq : Mcq) : List String :=
  let missing := required_fields.filterMap (fun field =>
    if (List.lookup field mcq).isNone then some ("Missing required field: " ++ field) else none)
  if !missing.isEmpty then missing
  else
    let qErrs :=
      match getField mcq "question" with
      | .str s =>
        if (pyStripData s.data).length < 10 then
          ["Question must be a non-empty string with at least 10 characters"]
        else []
      | _ => ["Question must be a non-empty string with at least 10 characters"]
    let oErrs :=
      match getField mcq "options" with
      | .list opts =>
        if opts.length ≠ 4 then ["Options must be a list with exactly 4 items"]
        else optionItemErrors 0 opts
      | _ => ["Options must be a list with exactly 4 items"]
    let cErrs :=
      if (["A", "B", "C", "D"].any (pyEqStr (getField mcq "correct_answer"))) then []
      else ["Correct answer must be one of: ['A', 'B', 'C', 'D']"]
    let eErrs :=
      match getField mcq "explanation" with
      | .str s =>
        if (pyStripData s.data).length < 10 then
          ["Explanation must be a non-empty string with at least 10 characters"]
        else []
      | _ => ["Explanation must be a non-empty string with at least 10 characters"]
    qErrs ++ oErrs ++ cErrs ++ eErrs

/-- The `stats` sub-dictionary of `validate_mcq_list`'s result. -/
structure MCQStats where
  total_questions : Nat
  valid_questions : Nat
  invalid_questions : Nat

/-- The result dictionary of `validate_mcq_list`. -/
structure MCQListResult where
  valid : Bool
  errors : List String
  warnings : List String
  stats : MCQStats

/-- The `for i, mcq in enumerate(mcqs)` loop of `validate_mcq_list`: counts
valid/invalid items and accumulates per-item errors tagged with the 1-based
question number. -/
def validateLoop : Nat → List Mcq → MCQListResult → MCQListResult
  | _, [], r => r
  | i, mcq :: rest, r =>
    let errs := validate_mcq_structure mcq
    if errs.isEmpty then
      validateLoop (i + 1) rest
        { r with stats := { r.stats with valid_questions := r.stats.valid_questions + 1 } }
    else
      validateLoop (i + 1) rest
        { r with
          stats := { r.stats with invalid_questions := r.stats.invalid_questions + 1 },
          errors := r.errors ++ errs.map (fun e => "Question " ++ toString (i + 1) ++ ": " ++ e) }

/-- `MCQValidator.validate_mcq_list(mcqs)`.  The input is typed as a list, so
the `not isinstance(mcqs, list)` branch of the source is unrepresentable here.
The warning threshold `valid_questions < len(mcqs) * 0.8` is a float comparison
in the source; since both counts are integers it is embedded as the exact
comparison `5 * valid_questions < 4 * len(mcqs)`.  (The two agree: when
`0.8 * n` is an integer `k`, the rounding error of the double product
`n * 0.8` is below half an ulp of `k`, so the product rounds to exactly `k`
and `valid < k` is decided exactly; otherwise the true value `0.8 * n` is at
distance ≥ 0.2 from every integer, far above the rounding error for every list
length below 2^50.) -/
def validate_mcq_list (mcqs : List Mcq) : MCQListResult :=
  let result : MCQListResult :=
    { valid := true, errors := [], warnings := [],
      stats := { total_questions := mcqs.length, valid_questions := 0, invalid_questions := 0 } }
  if mcqs.length = 0 then
    { result with valid := false, errors := result.errors ++ ["No MCQs provided"] }
  else
    let result := validateLoop 0 mcqs result
    let result :=
      if result.stats.invalid_questions > 0 then { result with valid := false } else result
    if 5 * result.stats.valid_questions < 4 * mcqs.length then
      { result with
        warnings := result.warnings ++ ["More than 20% of questions failed validation"] }
    else result

/-! ## `scripts/validate.py` — `TextValidator` -/

/-- The `stats` sub-dictionary of `validate_text`'s result (computed from the
original, unstripped text, as in the source). -/
structure TextStats where
  length : Nat
  word_count : Nat
  line_count : Nat

/-- The result dictionary of `validate_text`. -/
structure TextResult where
  valid : Bool
  errors : List String
  warnings : List String
  stats : TextStats

def MIN_TEXT_LENGTH : Nat := 100
def MAX_TEXT_LENGTH : Nat := 100000

/-- `TextValidator.validate_text(text)`.  The input is typed as a string, so
the `not isinstance(text, str)` branch of the source is unrepresentable. -/
def validate_text (text0 : String) : TextResult :=
  let result : TextResult :=
    { valid := true, errors := [], warnings := [],
      stats := { length := text0.length, word_count := (pySplit text0).length,
                 line_count := (text0.split (· == '\n')).length } }
  let text := pyStrip text0
  let result :=
    if text.length < MIN_TEXT_LENGTH then
      { result with
        valid := false,
        errors := result.errors ++
          ["Text too short: " ++ toString text.length ++ " characters. Minimum: " ++
            toString MIN_TEXT_LENGTH] }
    else result
  let result :=
    if text.length > MAX_TEXT_LENGTH then
      { result with
        valid := false,
        errors := result.errors ++
          ["Text too long: " ++ toString text.length ++ " characters. Maximum: " ++
            toString MAX_TEXT_LENGTH] }
    else result
  let result :=
    if text.length < 500 then
      { result with warnings := result.warnings ++
          ["Short text detected. May result in fewer quality questions"] }
    else result
  if text.length > 50000 then
    { result with warnings := result.warnings ++
        ["Very long text detected. Consider splitting into sections"] }
  else result

/-! ## `scripts/validate.py` — `WorkflowValidator` -/

/-- The `parameters` sub-dictionary of `validate_workflow_inputs`'s result. -/
structure WorkflowParams where
  filename : String
  difficulty : String
  num_questions : String

/-- The result dictionary of `validate_workflow_inputs`. -/
structure WorkflowResult where
  valid : Bool
  errors : List String
  warnings : List String
  parameters : WorkflowParams

def valid_difficulties : List String := ["easy", "medium", "hard"]

/-- `WorkflowValidator.validate_workflow_inputs(filename, difficulty,
num_questions)`.  All three inputs arrive as strings (they come from the
command line), so the `isinstance` half of the filename test is always true and
`not filename` means the empty string. -/
def validate_workflow_inputs (filename difficulty num_questions : String) : WorkflowResult :=
  let r : WorkflowResult :=
    { valid := true, errors := [], warnings := [],
      parameters := { filename := filename, difficulty := difficulty,
                      num_questions := num_questions } }
  let r :=
    if filename == "" then
      { r with
        valid := false,
        errors := r.errors ++ ["Filename is required and must be a string"] }
    else r
  let r :=
    if !(valid_difficulties.contains difficulty) then
      { r with
        valid := false,
        errors := r.errors ++
          ["Invalid difficulty: " ++ difficulty ++
            ". Must be one of: ['easy', 'medium', 'hard']"] }
    else r
  match pyInt num_questions with
  | some n =>
    if n < 1 || n > 20 then
      { r with
        valid := false,
        errors := r.errors ++
          ["Number of questions must be between 1 and 20, got: " ++ toString n] }
    else r
  | none =>
    { r with
      valid := false,
      errors := r.errors ++
        ["Number of questions must be a valid integer, got: " ++ num_questions] }

/-! ## Response parsing

The JSON library (`json.loads`) is an external collaborator; it is modelled by
an explicit argument `loads : String → Option Value` (`none` stands for
`json.JSONDecodeError`).  Each pipeline applies its own textual clean-up to the
raw backend text before handing the candidate to `loads`, exactly as in the
sources. -/

/-- How the embedded parsing steps fail: `decodeFailed` is
`json.JSONDecodeError`, `notArray` is the
`ValueError("Response is not a JSON array")` raised on a decoded non-list. -/
inductive ParseErr where
  | decodeFailed
  | notArray

/-- The candidate JSON text that `generate_mcqs_with_hf` hands to `json.loads`:
strip the response, then, if both `[` and `]` occur, the substring from the
first `[` to the last `]` inclusive, else the whole response. -/
def hfJsonCandidate (response0 : String) : String :=
  let response := pyStrip response0
  if pyContainsChar response '[' && pyContainsChar response ']' then
    pySlice response (pyFindIdx response '[') (pyRFindIdx response ']' + 1)
  else response

/-- The candidate JSON text that `generate_mcqs_with_api` hands to
`json.loads`: strip the response, drop a leading "```json" marker (7
characters) and a trailing "```" marker (3 characters) when present. -/
def apiJsonCandidate (response0 : String) : String :=
  let r1 := pyStrip response0
  let r2 := if pyStartsWith r1 "```json" then (⟨r1.data.drop 7⟩ : String) else r1
  if pyEndsWith r2 "```" then (⟨r2.data.take (r2.data.length - 3)⟩ : String) else r2

/-- Whether `loads` decodes `s` to a JSON array (Python list). -/
def decodesToList (loads : String → Option Value) (s : String) : Bool :=
  match loads s with
  | some (.list _) => true
  | _ => false

/-- The parsing-and-return tail of `generate_mcqs_with_hf` (lines 120–151): the
raw backend `response` is mapped to the returned MCQ list.  A decode failure
(`json.JSONDecodeError`) or a decoded non-list (`ValueError`, caught by the
generic `except`) both fall back to `create_fallback_mcqs(text, difficulty,
num_questions)`.  The network call producing `response` is the collaborator. -/
def generate_mcqs_with_hf (loads : String → Option Value)
    (response text difficulty : String) (num_questions : Int) : List Value :=
  match loads (hfJsonCandidate response) with
  | some (.list mcqs) => mcqs
  | some _ => (create_fallback_mcqs text difficulty num_questions).map Value.dict
  | none => (create_fallback_mcqs text difficulty num_questions).map Value.dict

/-- The parsing-and-return tail of `generate_mcqs_with_api` (lines 164–187):
decode failures and non-list decodes are re-raised (`Except.error`), never
replaced by a fallback. -/
def generate_mcqs_with_api (loads : String → Option Value)
    (response : String) : Except ParseErr (List Value) :=
  match loads (apiJsonCandidate response) with
  | some (.list mcqs) => .ok mcqs
  | some _ => .error .notArray
  | none => .error .decodeFailed

/-! ## `scripts/generate_mcqs_api.py` — prompt construction and orchestration -/

/-- `create_mcq_prompt(text, difficulty, num_questions)` of
`generate_mcqs_api.py`: the instruction string posted to the completion
service.  Literal braces of the embedded JSON example are written `\x7b`/`\x7d`. -/
def create_mcq_prompt (text difficulty : String) (num_questions : Int) : String :=
  "You are an expert educational content creator. Generate " ++ toString num_questions ++
  " high-quality multiple choice questions from the provided text content.\n\n" ++
  "## Instructions:\n" ++
  "- Difficulty Level: " ++ difficulty ++ "\n" ++
  "- Create questions that test understanding, not just memorization\n" ++
  "- Each question must have exactly 4 options (A, B, C, D)\n" ++
  "- Only one correct answer per question\n" ++
  "- Make distractors plausible but clearly incorrect\n" ++
  "- Provide educational explanations that teach concepts\n\n" ++
  "## Difficulty Guidelines:\n" ++
  "- **Easy**: Basic recall, definitions, simple concepts\n" ++
  "- **Medium**: Application of concepts, analysis, moderate complexity\n" ++
  "- **Hard**: Synthesis, evaluation, complex reasoning, critical thinking\n\n" ++
  "## Output Format:\n" ++
  "Return ONLY a valid JSON array with this exact structure:\n\n" ++
  "```json\n[\n  \x7b\n    \"question\": \"What is the main purpose of photosynthesis?\",\n" ++
  "    \"options\": [\n      \"A) To produce oxygen for animals\",\n" ++
  "      \"B) To convert sunlight into chemical energy\",\n" ++
  "      \"C) To remove carbon dioxide from the atmosphere\",\n" ++
  "      \"D) To create water molecules\"\n    ],\n" ++
  "    \"correct_answer\": \"B\",\n" ++
  "    \"explanation\": \"Photosynthesis primarily converts light energy into chemical energy (glucose), which plants use for growth and metabolism. While it does produce oxygen as a byproduct, that's not its main purpose.\"\n" ++
  "  \x7d\n]\n```\n\n" ++
  "## Text Content:\n" ++ text ++ "\n\n" ++
  "Generate " ++ toString num_questions ++
  " questions now. Return only the JSON array, no additional text."

/-- The outbound request `OllamaAPIClient.generate_text` posts: the model name
and the prompt (the network transport itself is the collaborator). -/
structure BackendRequest where
  model : String
  prompt : String

/-- The pre-network portion of `main` in `generate_mcqs_api.py` (lines
189–229): given the extracted text (the file read is the collaborator) and the
command-line `difficulty`/`num_questions` strings, the backend request that
`generate_mcqs_with_api` hands to `OllamaAPIClient.generate_text`, or `none`
when the run exits before any backend call (empty stripped text, or
`int(args.num_questions)` raising `ValueError`).  Note that `main` never calls
`WorkflowValidator.validate_workflow_inputs` (nothing in the repository does):
the prompt is built and posted for whatever difficulty/count the command line
carries. -/
def api_main_backend_request (text difficulty num_questions model : String) :
    Option BackendRequest :=
  if pyStrip text == "" then none
  else
    match pyInt num_questions with
    | none => none
    | some n => some { model := model, prompt := create_mcq_prompt text difficulty n }

/-! ## Concrete inputs used to instantiate the theorems -/

/-- The sample MCQ from `validate.py`'s own `main()` self-test: structurally
valid, options carrying the A)/B)/C)/D) labels. -/
def test_mcq : Mcq :=
  [("question", .str "What is the capital of France?"),
   ("options", .list [.str "A) London", .str "B) Berlin", .str "C) Paris", .str "D) Madrid"]),
   ("correct_answer", .str "C"),
   ("explanation", .str "Paris is the capital and largest city of France.")]

/-- The same MCQ with the four labels stripped from the options: every option
is still a string of ≥ 3 stripped characters but none carries an A)/B)/C)/D)
label. -/
def mcqNoLabels : Mcq :=
  [("question", .str "What is the capital of France?"),
   ("options", .list [.str "London", .str "Berlin", .str "Paris", .str "Madrid"]),
   ("correct_answer", .str "C"),
   ("explanation", .str "Paris is the capital and largest city of France.")]

/-- A list of four structurally valid MCQs. -/
def fourValidMcqs : List Mcq := [test_mcq, test_mcq, test_mcq, test_mcq]

/-- The sample source text used in the spec's fallback example. -/
def sampleText : String := "Photosynthesis converts sunlight into chemical energy"

/-- A JSON decoder that fails on every input (every candidate raises
`json.JSONDecodeError`). -/
def constNoneLoads : String → Option Value := fun _ => none

/-- A JSON decoder defined exactly on the serialized empty array. -/
def loadsEmptyArr : String → Option Value :=
  fun s => if s = "[]" then some (Value.list []) else none

/-- A 50-character source text. -/
def fiftyCharText : String := ⟨List.replicate 50 'a'⟩

/-- A 100000-character source text. -/
def hundredThousandCharText : String := ⟨List.replicate 100000 'a'⟩

end Quizzer

namespace Quizzer

/-! ## Invariants of the `validate_mcq_list` loop -/

theorem validateLoop_total (i : Nat) (mcqs : List Mcq) (r : MCQListResult) :
    (validateLoop i mcqs r).stats.total_questions = r.stats.total_questions := by
  induction mcqs generalizing i r with
  | nil => rfl
  | cons m rest ih =>
    unfold validateLoop
    by_cases h : (validate_mcq_structure m).isEmpty <;> simp [h, ih]

theorem validateLoop_valid (i : Nat) (mcqs : List Mcq) (r : MCQListResult) :
    (validateLoop i mcqs r).valid = r.valid := by
  induction mcqs generalizing i r with
  | nil => rfl
  | cons m rest ih =>
    unfold validateLoop
    by_cases h : (validate_mcq_structure m).isEmpty <;> simp [h, ih]

theorem validateLoop_warnings (i : Nat) (mcqs : List Mcq) (r : MCQListResult) :
    (validateLoop i mcqs r).warnings = r.warnings := by
  induction mcqs generalizing i r with
  | nil => rfl
  | cons m rest ih =>
    unfold validateLoop
    by_cases h : (validate_mcq_structure m).isEmpty <;> simp [h, ih]

theorem validateLoop_valid_count (i : Nat) (mcqs : List Mcq) (r : MCQListResult) :
    (validateLoop i mcqs r).stats.valid_questions =
      r.stats.valid_questions + mcqs.countP (fun m => (validate_mcq_structure m).isEmpty) := by
  induction mcqs generalizing i r with
  | nil => simp [validateLoop]
  | cons m rest ih =>
    unfold validateLoop
    by_cases h : (validate_mcq_structure m).isEmpty <;>
      simp [h, ih, List.countP_cons] <;> omega

theorem validateLoop_invalid_count (i : Nat) (mcqs : List Mcq) (r : MCQListResult) :
    (validateLoop i mcqs r).stats.invalid_questions =
      r.stats.invalid_questions + mcqs.countP (fun m => !(validate_mcq_structure m).isEmpty) := by
  induction mcqs generalizing i r with
  | nil => simp [validateLoop]
  | cons m rest ih =>
    unfold validateLoop
    by_cases h : (validate_mcq_structure m).isEmpty <;>
      simp [h, ih, List.countP_cons] <;> omega

theorem validateLoop_errors (i : Nat) (mcqs : List Mcq) (r : MCQListResult) :
    ∃ t, (validateLoop i mcqs r).errors = r.errors ++ t ∧
      (t = [] ↔ ∀ m ∈ mcqs, (validate_mcq_structure m).isEmpty = true) := by
  induction mcqs generalizing i r with
  | nil => exact ⟨[], by simp [validateLoop]⟩
  | cons m rest ih =>
    unfold validateLoop
    by_cases h : (validate_mcq_structure m).isEmpty
    · simp only [h, if_pos]
      obtain ⟨t, ht, hiff⟩ := ih (i + 1)
        { r with stats := { r.stats with valid_questions := r.stats.valid_questions + 1 } }
      refine ⟨t, by simpa using ht, ?_⟩
      rw [hiff]
      have hm : validate_mcq_structure m = [] := by simpa using h
      simp [List.forall_mem_cons, hm]
    · simp only [h, if_neg, Bool.false_eq_true, not_false_iff]
      obtain ⟨t, ht, hiff⟩ := ih (i + 1)
        { r with
          stats := { r.stats with invalid_questions := r.stats.invalid_questions + 1 },
          errors := r.errors ++ (validate_mcq_structure m).map
            (fun e => "Question " ++ toString (i + 1) ++ ": " ++ e) }
      refine ⟨(validate_mcq_structure m).map
        (fun e => "Question " ++ toString (i + 1) ++ ": " ++ e) ++ t, ?_, ?_⟩
      · simpa [List.append_assoc] using ht
      · constructor
        · intro hnil
          have : (validate_mcq_structure m).map
              (fun e => "Question " ++ toString (i + 1) ++ ": " ++ e) = [] := by
            exact List.append_eq_nil.mp hnil |>.1
          simp [List.map_eq_nil_iff] at this
          simp [this] at h
        · intro hall
          have := hall m (List.mem_cons_self m rest)
          simp [this] at h

theorem countP_add_countP_not (p : Mcq → Bool) (l : List Mcq) :
    l.countP p + l.countP (fun m => !(p m)) = l.length := by
  induction l with
  | nil => rfl
  | cons m rest ih =>
    by_cases h : p m <;> simp [List.countP_cons, h] <;> omega

/-- Full characterization of `validate_mcq_list` on a nonempty list. -/
theorem validate_mcq_list_spec (mcqs : List Mcq) (h : mcqs ≠ []) :
    (validate_mcq_list mcqs).stats.total_questions = mcqs.length ∧
    (validate_mcq_list mcqs).stats.valid_questions
      = mcqs.countP (fun m => (validate_mcq_structure m).isEmpty) ∧
    (validate_mcq_list mcqs).stats.invalid_questions
      = mcqs.countP (fun m => !(validate_mcq_structure m).isEmpty) ∧
    ((validate_mcq_list mcqs).valid = true ↔ ∀ m ∈ mcqs, validate_mcq_structure m = []) ∧
    ((validate_mcq_list mcqs).errors = [] ↔ ∀ m ∈ mcqs, validate_mcq_structure m = []) ∧
    (validate_mcq_list mcqs).warnings =
      (if 5 * mcqs.countP (fun m => (validate_mcq_structure m).isEmpty) < 4 * mcqs.length then
        ["More than 20% of questions failed validation"] else []) := by
  have hlen : mcqs.length ≠ 0 := by simpa [List.length_eq_zero] using h
  unfold validate_mcq_list
  rw [if_neg hlen]
  dsimp only
  set r1 := validateLoop 0 mcqs
    { valid := true, errors := [], warnings := [],
      stats := { total_questions := mcqs.length, valid_questions := 0, invalid_questions := 0 } }
    with hr1
  have htot : r1.stats.total_questions = mcqs.length := by
    rw [hr1, validateLoop_total]
  have hvc : r1.stats.valid_questions
      = mcqs.countP (fun m => (validate_mcq_structure m).isEmpty) := by
    rw [hr1, validateLoop_valid_count]; simp
  have hic : r1.stats.invalid_questions
      = mcqs.countP (fun m => !(validate_mcq_structure m).isEmpty) := by
    rw [hr1, validateLoop_invalid_count]; simp
  have hv : r1.valid = true := by rw [hr1, validateLoop_valid]
  have hwn : r1.warnings = [] := by rw [hr1, validateLoop_warnings]
  obtain ⟨t, hterr, htiff⟩ := validateLoop_errors 0 mcqs
    { valid := true, errors := [], warnings := [],
      stats := { total_questions := mcqs.length, valid_questions := 0, invalid_questions := 0 } }
  have herr : r1.errors = t := by rw [hr1, hterr]; simp
  have hpass : (mcqs.countP (fun m => !(validate_mcq_structure m).isEmpty) = 0)
      ↔ ∀ m ∈ mcqs, validate_mcq_structure m = [] := by
    rw [List.countP_eq_zero]
    constructor
    · intro hall m hm
      simpa using hall m hm
    · intro hall m hm
      simp [hall m hm]
  have htiffl : (t = []) ↔ ∀ m ∈ mcqs, validate_mcq_structure m = [] := by
    rw [htiff]
    constructor
    · intro hall m hm
      simpa using hall m hm
    · intro hall m hm
      simp [hall m hm]
  by_cases hinv : r1.stats.invalid_questions > 0
  · have hnot : ¬ ∀ m ∈ mcqs, validate_mcq_structure m = [] := by
      rw [← hpass]; omega
    rw [if_pos hinv]
    split <;>
      refine ⟨by simpa using htot, by simpa using hvc, by simpa using hic,
        by simp [hnot], by simp [herr, htiffl, hnot], ?_⟩
    · rename_i h45
      simp only [hvc] at h45
      simp [hwn, h45]
    · rename_i h45
      simp only [hvc] at h45
      simp [hwn, h45]
  · have hall : ∀ m ∈ mcqs, validate_mcq_structure m = [] := by
      rw [← hpass]; omega
    rw [if_neg hinv]
    split <;>
      refine ⟨by simpa using htot, by simpa using hvc, by simpa using hic,
        by simp [hv] <;> exact hall, by simp [herr, htiffl] <;> exact hall, ?_⟩
    · rename_i h45
      simp only [hvc] at h45
      simp [hwn, h45]
    · rename_i h45
      simp only [hvc] at h45
      simp [hwn, h45]

/-! ## Stripping facts -/

/-- A character list whose ends are non-whitespace is unchanged by
stripping. -/
theorem pyStripData_eq_self (l : List Char)
    (hh : ∀ c, l.head? = some c → c.isWhitespace = false)
    (hl : ∀ c, l.getLast? = some c → c.isWhitespace = false) :
    pyStripData l = l := by
  cases l with
  | nil => rfl
  | cons c t =>
    have hc : c.isWhitespace = false := hh c rfl
    have h1 : List.dropWhile Char.isWhitespace (c :: t) = c :: t := by
      rw [List.dropWhile_cons, hc]; rfl
    rcases hrev : (c :: t).reverse with _ | ⟨d, rt⟩
    · simp at hrev
    · have hd : (c :: t).getLast? = some d := by
        rw [← List.head?_reverse, hrev]; rfl
      have hdw := hl d hd
      have h2 : List.dropWhile Char.isWhitespace (d :: rt) = d :: rt := by
        rw [List.dropWhile_cons, hdw]; rfl
      unfold pyStripData
      rw [h1, hrev, h2, ← hrev, List.reverse_reverse]

/-- A string of the form `a ++ w ++ b` whose outer pieces begin and end in
non-whitespace is unchanged by stripping. -/
theorem pyStripData_append3 (a w b : String) (c d : Char)
    (hca : a.data.head? = some c) (hcw : c.isWhitespace = false)
    (hdb : b.data.getLast? = some d) (hdw : d.isWhitespace = false) :
    pyStripData ((a ++ w ++ b) : String).data = ((a ++ w ++ b) : String).data := by
  apply pyStripData_eq_self
  · intro e he
    rw [String.data_append, String.data_append, List.head?_append, List.head?_append,
      hca] at he
    simp only [Option.or_some] at he
    cases he
    exact hcw
  · intro e he
    rw [String.data_append, String.data_append, List.getLast?_append, hdb] at he
    simp only [Option.or_some] at he
    cases he
    exact hdw

/-- Lower bound on the stripped length of a wrapped template string. -/
theorem stripLen_wrap_ge (a w b : String) (c d : Char)
    (hca : a.data.head? = some c) (hcw : c.isWhitespace = false)
    (hdb : b.data.getLast? = some d) (hdw : d.isWhitespace = false)
    (k : Nat) (hk : k ≤ a.data.length) :
    ¬ ((pyStripData ((a ++ w ++ b) : String).data).length < k) := by
  rw [pyStripData_append3 a w b c d hca hcw hdb hdw]
  simp only [String.data_append, List.length_append]
  omega

/-- Every fallback MCQ is structurally valid. -/
theorem validate_fallbackMcq (w : String) :
    validate_mcq_structure (fallbackMcq w) = [] := by
  have hq := stripLen_wrap_ge "What is the main topic related to '" w "' in the text?"
    'W' '?' rfl rfl rfl rfl 10 (by decide)
  have h1 := stripLen_wrap_ge "A) " w " is a key concept" 'A' 't' rfl rfl rfl rfl 3 (by decide)
  have h2 := stripLen_wrap_ge "B) " w " is mentioned briefly" 'B' 'y' rfl rfl rfl rfl 3 (by decide)
  have h3 := stripLen_wrap_ge "C) " w " is not important" 'C' 't' rfl rfl rfl rfl 3 (by decide)
  have h4 := stripLen_wrap_ge "D) " w " is undefined" 'D' 'd' rfl rfl rfl rfl 3 (by decide)
  have he := stripLen_wrap_ge "The text discusses " w " as an important concept."
    'T' '.' rfl rfl rfl rfl 10 (by decide)
  simp only [not_lt] at hq h1 h2 h3 h4 he
  simp [validate_mcq_structure, fallbackMcq, required_fields, getField, List.lookup,
    optionItemErrors, pyEqStr] at hq h1 h2 h3 h4 he ⊢ <;>
    first
    | assumption
    | omega

/-- The index loop of `create_fallback_mcqs` is a take-and-map. -/
theorem range_filterMap_take {α β : Type} (k : Nat) (ws : List α) (f : α → β) :
    (List.range k).filterMap (fun i =>
      if h : i < ws.length then some (f (ws.get ⟨i, h⟩)) else none)
      = (ws.take k).map f := by
  induction k with
  | zero => simp
  | succ k ih =>
    rw [List.range_succ, List.filterMap_append, ih, List.take_succ, List.map_append]
    congr 1
    by_cases h : k < ws.length
    · simp [h, List.getElem?_eq_getElem h]
    · simp [h, List.getElem?_eq_none (Nat.le_of_not_lt h)]

/-- Closed form of the fallback generator. -/
theorem create_fallback_eq (text d : String) (n : Int) :
    create_fallback_mcqs text d n
      = ((important_words text).take (min n 3).toNat).map fallbackMcq := by
  unfold create_fallback_mcqs
  exact range_filterMap_take _ _ _

/-! ## Claim theorems -/

/-- C1: for every raw backend response whose extracted candidate fails JSON
decoding or decodes to a non-array value, the hosted-inference pipeline
(`generate_mcqs_with_hf`) returns the fallback MCQ list built from
`(text, difficulty, num_questions)`, while the completion-service pipeline
(`generate_mcqs_with_api`) propagates the error and never substitutes a
fallback. -/
theorem C1_parse_failure_asymmetry (loads : String → Option Value)
    (response text difficulty : String) (n : Int)
    (hhf : decodesToList loads (hfJsonCandidate response) = false)
    (hapi : decodesToList loads (apiJsonCandidate response) = false) :
    generate_mcqs_with_hf loads response text difficulty n
      = (create_fallback_mcqs text difficulty n).map Value.dict ∧
    ∃ e, generate_mcqs_with_api loads response = Except.error e := by
  unfold decodesToList at hhf hapi
  constructor
  · unfold generate_mcqs_with_hf
    cases h : loads (hfJsonCandidate response) with
    | none => simp
    | some v =>
      rw [h] at hhf
      cases v <;> simp_all
  · unfold generate_mcqs_with_api
    cases h : loads (apiJsonCandidate response) with
    | none => exact ⟨ParseErr.decodeFailed, by simp⟩
    | some v =>
      rw [h] at hapi
      cases v <;> simp_all <;> exact ⟨ParseErr.notArray, rfl⟩

/-- Witness for C1: a decoder failing on every candidate, at concrete inputs. -/
theorem C1_parse_failure_asymmetry_witness :
    generate_mcqs_with_hf constNoneLoads "oops" sampleText "easy" 2
      = (create_fallback_mcqs sampleText "easy" 2).map Value.dict ∧
    ∃ e, generate_mcqs_with_api constNoneLoads "oops" = Except.error e :=
  C1_parse_failure_asymmetry constNoneLoads "oops" sampleText "easy" 2 rfl rfl

/-- C3: the fallback generator totally returns one templated MCQ per candidate
token, in order, at most `min(num_questions, 3)` of them (hence at most 3); the
candidate pool is the first 10 whitespace tokens that are longer than 5
characters and purely alphabetic; every produced MCQ has correct answer "A"
and is the template of its token; the result is empty when no token
qualifies. -/
theorem C3_fallback_shape (text d : String) (n : Int) :
    create_fallback_mcqs text d n
      = ((important_words text).take (min n 3).toNat).map fallbackMcq ∧
    (create_fallback_mcqs text d n).length ≤ (min n 3).toNat ∧
    (min n 3).toNat ≤ 3 ∧
    important_words text
      = ((pySplit text).filter (fun w => decide (w.length > 5) && pyIsAlpha w)).take 10 ∧
    (important_words text).length ≤ 10 ∧
    (∀ w ∈ important_words text, 5 < w.length ∧ pyIsAlpha w = true ∧ w ∈ pySplit text) ∧
    (∀ mcq ∈ create_fallback_mcqs text d n,
      List.lookup "correct_answer" mcq = some (Value.str "A") ∧
      ∃ w ∈ important_words text, mcq = fallbackMcq w) := by
  refine ⟨create_fallback_eq text d n, ?_, by omega, rfl, ?_, ?_, ?_⟩
  · rw [create_fallback_eq]
    simpa using List.length_take_le _ _
  · unfold important_words
    simpa using List.length_take_le _ _
  · intro w hw
    unfold important_words at hw
    have hmem := List.take_subset _ _ hw
    rw [List.mem_filter] at hmem
    obtain ⟨hin, hcond⟩ := hmem
    simp only [Bool.and_eq_true, decide_eq_true_eq] at hcond
    exact ⟨hcond.1, hcond.2, hin⟩
  · intro mcq hm
    rw [create_fallback_eq] at hm
    obtain ⟨w, hw, rfl⟩ := List.mem_map.mp hm
    exact ⟨by simp [fallbackMcq, List.lookup], w, List.take_subset _ _ hw, rfl⟩

/-- Witness for C3's universally quantified membership conjunct at the spec
example text. -/
theorem C3_fallback_shape_witness :
    List.lookup "correct_answer" (fallbackMcq "Photosynthesis") = some (Value.str "A") ∧
    ∃ w ∈ important_words sampleText, fallbackMcq "Photosynthesis" = fallbackMcq w := by
  have h : create_fallback_mcqs sampleText "easy" 2
      = [fallbackMcq "Photosynthesis", fallbackMcq "converts"] := rfl
  exact (C3_fallback_shape sampleText "easy" 2).2.2.2.2.2.2 (fallbackMcq "Photosynthesis")
    (by rw [h]; exact List.mem_cons_self _ _)

/-- C9: every MCQ produced by the fallback generator passes the per-item
structural check, so any nonempty fallback set validates with `valid = true`. -/
theorem C9_fallback_passes_validation (text d : String) (n : Int) :
    (∀ mcq ∈ create_fallback_mcqs text d n, validate_mcq_structure mcq = []) ∧
    (create_fallback_mcqs text d n ≠ [] →
      (validate_mcq_list (create_fallback_mcqs text d n)).valid = true) := by
  have hmem : ∀ mcq ∈ create_fallback_mcqs text d n, validate_mcq_structure mcq = [] := by
    intro mcq hm
    rw [create_fallback_eq] at hm
    obtain ⟨w, hw, rfl⟩ := List.mem_map.mp hm
    exact validate_fallbackMcq w
  exact ⟨hmem, fun hne => ((validate_mcq_list_spec _ hne).2.2.2.1).mpr hmem⟩

/-- Witness for C9 at the spec example text. -/
theorem C9_fallback_passes_validation_witness :
    validate_mcq_structure (fallbackMcq "Photosynthesis") = [] ∧
    (validate_mcq_list (create_fallback_mcqs sampleText "easy" 2)).valid = true := by
  have h : create_fallback_mcqs sampleText "easy" 2
      = [fallbackMcq "Photosynthesis", fallbackMcq "converts"] := rfl
  constructor
  · exact (C9_fallback_passes_validation sampleText "easy" 2).1 (fallbackMcq "Photosynthesis")
      (by rw [h]; exact List.mem_cons_self _ _)
  · exact (C9_fallback_passes_validation sampleText "easy" 2).2 (by rw [h]; simp)

/-- C10: `validate_mcq_list` satisfies the counting invariant: the total equals
the input length and valid + invalid sums to the total, each item landing in
exactly one bucket. -/
theorem C10_counting_invariant (mcqs : List Mcq) :
    (validate_mcq_list mcqs).stats.total_questions = mcqs.length ∧
    (validate_mcq_list mcqs).stats.valid_questions
        + (validate_mcq_list mcqs).stats.invalid_questions
      = (validate_mcq_list mcqs).stats.total_questions ∧
    (validate_mcq_list mcqs).stats.valid_questions
      = mcqs.countP (fun m => (validate_mcq_structure m).isEmpty) ∧
    (validate_mcq_list mcqs).stats.invalid_questions
      = mcqs.countP (fun m => !(validate_mcq_structure m).isEmpty) := by
  rcases eq_or_ne mcqs [] with rfl | hne
  · exact ⟨rfl, rfl, rfl, rfl⟩
  · obtain ⟨htot, hvc, hic, -, -, -⟩ := validate_mcq_list_spec mcqs hne
    exact ⟨htot, by rw [htot, hvc, hic, countP_add_countP_not], hvc, hic⟩

/-- The option loop accepts any list of strings of stripped length at least
3, from any starting index. -/
theorem optionItemErrors_nil (i : Nat) (opts : List String)
    (h : ∀ o ∈ opts, 3 ≤ (pyStripData o.data).length) :
    optionItemErrors i (opts.map Value.str) = [] := by
  induction opts generalizing i with
  | nil => rfl
  | cons o rest ih =>
    have ho := h o (List.mem_cons_self _ _)
    simp only [List.map_cons, optionItemErrors]
    rw [if_neg (by omega)]
    simpa using ih (i + 1) (fun x hx => h x (List.mem_cons_of_mem _ hx))

/-- C2 counterexample: an MCQ whose four options are strings of ≥ 3 stripped
characters but carry no A)/B)/C)/D) labels is accepted with an empty error
list, refuting the claim that such an item is rejected. -/
theorem C2_counterexample_unlabeled_accepted :
    validate_mcq_structure mcqNoLabels = [] := rfl

/-- C2 (amended): `validate_mcq_structure` never inspects option label
prefixes.  Any item whose question and explanation are strings of ≥ 10
stripped characters, whose options are exactly 4 strings of ≥ 3 stripped
characters — labelled with A)/B)/C)/D) or not — and whose correct answer is
one of A/B/C/D, yields an empty error list. -/
theorem C2_amended_no_prefix_requirement (q ex ca : String) (opts : List String)
    (hq : 10 ≤ (pyStripData q.data).length)
    (hlen : opts.length = 4)
    (hopts : ∀ o ∈ opts, 3 ≤ (pyStripData o.data).length)
    (hca : ca ∈ ["A", "B", "C", "D"])
    (hex : 10 ≤ (pyStripData ex.data).length) :
    validate_mcq_structure
      [("question", Value.str q), ("options", Value.list (opts.map Value.str)),
       ("correct_answer", Value.str ca), ("explanation", Value.str ex)] = [] := by
  have hanyca : (["A", "B", "C", "D"].any (pyEqStr (Value.str ca))) = true := by
    fin_cases hca <;> rfl
  have hopt := optionItemErrors_nil 0 opts hopts
  have hq' : ¬ ((pyStripData q.data).length < 10) := by omega
  have hex' : ¬ ((pyStripData ex.data).length < 10) := by omega
  simp [validate_mcq_structure, required_fields, getField, List.lookup, hq', hex',
    hlen, hanyca, hopt]

/-- Witness for C2's amended theorem at the concrete label-free MCQ. -/
theorem C2_amended_no_prefix_requirement_witness :
    validate_mcq_structure
      [("question", Value.str "What is the capital of France?"),
       ("options", Value.list (["London", "Berlin", "Paris", "Madrid"].map Value.str)),
       ("correct_answer", Value.str "C"),
       ("explanation", Value.str "Paris is the capital and largest city of France.")] = [] :=
  C2_amended_no_prefix_requirement "What is the capital of France?"
    "Paris is the capital and largest city of France." "C"
    ["London", "Berlin", "Paris", "Madrid"]
    (by decide) rfl (by decide) (by decide) (by decide)

/-- C4: `validate_mcq_list` returns `valid = true` exactly for a nonempty list
with zero invalid items (equivalently: every item passing the per-item check);
an empty list is unconditionally invalid with exactly one error; a fully valid
4-item list yields `valid = true`, zero errors and 4 valid questions. -/
theorem C4_list_validation (mcqs : List Mcq) :
    ((validate_mcq_list mcqs).valid = true ↔
      (mcqs ≠ [] ∧ (validate_mcq_list mcqs).stats.invalid_questions = 0)) ∧
    ((validate_mcq_list mcqs).valid = true ↔
      (mcqs ≠ [] ∧ ∀ m ∈ mcqs, validate_mcq_structure m = [])) ∧
    (mcqs = [] →
      (validate_mcq_list mcqs).valid = false ∧
      (validate_mcq_list mcqs).errors = ["No MCQs provided"]) ∧
    ((mcqs.length = 4 ∧ ∀ m ∈ mcqs, validate_mcq_structure m = []) →
      ((validate_mcq_list mcqs).valid = true ∧ (validate_mcq_list mcqs).errors = [] ∧
       (validate_mcq_list mcqs).stats.valid_questions = 4)) := by
  rcases eq_or_ne mcqs [] with rfl | hne
  · exact ⟨by simp [validate_mcq_list], by simp [validate_mcq_list],
      fun _ => ⟨rfl, rfl⟩, by simp⟩
  · obtain ⟨htot, hvc, hic, hviff, heiff, hwarn⟩ := validate_mcq_list_spec mcqs hne
    have hpass : ((validate_mcq_list mcqs).stats.invalid_questions = 0)
        ↔ ∀ m ∈ mcqs, validate_mcq_structure m = [] := by
      rw [hic, List.countP_eq_zero]
      constructor
      · intro hall m hm
        simpa using hall m hm
      · intro hall m hm
        simp [hall m hm]
    refine ⟨?_, ?_, fun h => absurd h hne, ?_⟩
    · rw [hviff, ← hpass]
      simp [hne]
    · rw [hviff]
      simp [hne]
    · rintro ⟨hl4, hall⟩
      refine ⟨hviff.mpr hall, heiff.mpr hall, ?_⟩
      have : mcqs.countP (fun m => (validate_mcq_structure m).isEmpty) = mcqs.length :=
        List.countP_eq_length.mpr (fun m hm => by simp [hall m hm])
      rw [hvc, this, hl4]

/-- Witness for C4 at a concrete fully valid 4-item list. -/
theorem C4_list_validation_witness :
    (validate_mcq_list fourValidMcqs).valid = true ∧
    (validate_mcq_list fourValidMcqs).errors = [] ∧
    (validate_mcq_list fourValidMcqs).stats.valid_questions = 4 :=
  (C4_list_validation fourValidMcqs).2.2.2 ⟨rfl, by
    intro m hm
    simp only [fourValidMcqs, List.mem_cons, List.not_mem_nil, or_false] at hm
    rcases hm with rfl | rfl | rfl | rfl <;> rfl⟩

/-- C5: on a nonempty list the warning is emitted exactly when strictly fewer
than 80% of the items pass the per-item check (the source's float comparison
`valid_questions < len * 0.8` embedded exactly, see `validate_mcq_list`), and
`valid` is determined solely by the invalid-item count, never by the warnings
list. -/
theorem C5_warning_threshold (mcqs : List Mcq) (hne : mcqs ≠ []) :
    ((validate_mcq_list mcqs).warnings
      = if 5 * mcqs.countP (fun m => (validate_mcq_structure m).isEmpty) < 4 * mcqs.length
        then ["More than 20% of questions failed validation"] else []) ∧
    ((validate_mcq_list mcqs).warnings ≠ [] ↔
      5 * mcqs.countP (fun m => (validate_mcq_structure m).isEmpty) < 4 * mcqs.length) ∧
    ((validate_mcq_list mcqs).valid = true ↔
      (validate_mcq_list mcqs).stats.invalid_questions = 0) := by
  obtain ⟨htot, hvc, hic, hviff, heiff, hwarn⟩ := validate_mcq_list_spec mcqs hne
  refine ⟨hwarn, ?_, ?_⟩
  · rw [hwarn]
    split_ifs with h <;> simp [h]
  · rw [hviff, hic, List.countP_eq_zero]
    constructor
    · intro hall m hm
      simp [hall m hm]
    · intro hall m hm
      simpa using hall m hm

/-- Witness for C5 at a concrete one-item list. -/
theorem C5_warning_threshold_witness :
    ((validate_mcq_list [test_mcq]).warnings
      = if 5 * [test_mcq].countP (fun m => (validate_mcq_structure m).isEmpty)
            < 4 * [test_mcq].length
        then ["More than 20% of questions failed validation"] else []) ∧
    ((validate_mcq_list [test_mcq]).warnings ≠ [] ↔
      5 * [test_mcq].countP (fun m => (validate_mcq_structure m).isEmpty)
        < 4 * [test_mcq].length) ∧
    ((validate_mcq_list [test_mcq]).valid = true ↔
      (validate_mcq_list [test_mcq]).stats.invalid_questions = 0) :=
  C5_warning_threshold [test_mcq] (by simp)

/-- Stripping a constant non-whitespace string is the identity. -/
theorem pyStripData_replicate (n : Nat) (c : Char) (hc : c.isWhitespace = false) :
    pyStripData (List.replicate n c) = List.replicate n c := by
  apply pyStripData_eq_self
  · intro e he
    cases n with
    | zero => simp at he
    | succ n =>
      rw [List.replicate_succ] at he
      cases he
      exact hc
  · intro e he
    rw [← List.head?_reverse, List.reverse_replicate] at he
    cases n with
    | zero => simp at he
    | succ n =>
      rw [List.replicate_succ] at he
      cases he
      exact hc

/-- Full characterization of `validate_text`: validity, errors and warnings as
functions of the stripped length. -/
theorem validate_text_spec (text : String) :
    ((validate_text text).valid = false ↔
      ((pyStrip text).length < 100 ∨ 100000 < (pyStrip text).length)) ∧
    ((validate_text text).errors = [] ↔
      (100 ≤ (pyStrip text).length ∧ (pyStrip text).length ≤ 100000)) ∧
    ((validate_text text).warnings =
      (if (pyStrip text).length < 500 then
        ["Short text detected. May result in fewer quality questions"] else []) ++
      (if 50000 < (pyStrip text).length then
        ["Very long text detected. Consider splitting into sections"] else [])) := by
  unfold validate_text MIN_TEXT_LENGTH MAX_TEXT_LENGTH
  dsimp only
  split_ifs with h1 h2 h3 h4 <;> simp_all <;> omega

/-- C8: `validate_text` returns `valid = false` exactly when the stripped
length is below 100 or above 100000 characters; warnings (not errors) appear
below 500 and above 50000 stripped characters; a 50-character text is
rejected while a 100000-character text passes with no error. -/
theorem C8_text_length_gate (text : String) :
    ((validate_text text).valid = false ↔
      ((pyStrip text).length < 100 ∨ 100000 < (pyStrip text).length)) ∧
    ((validate_text text).errors = [] ↔
      (100 ≤ (pyStrip text).length ∧ (pyStrip text).length ≤ 100000)) ∧
    ((validate_text text).warnings =
      (if (pyStrip text).length < 500 then
        ["Short text detected. May result in fewer quality questions"] else []) ++
      (if 50000 < (pyStrip text).length then
        ["Very long text detected. Consider splitting into sections"] else [])) ∧
    (validate_text fiftyCharText).valid = false ∧
    (validate_text hundredThousandCharText).valid = true ∧
    (validate_text hundredThousandCharText).errors = [] := by
  obtain ⟨hv, he, hw⟩ := validate_text_spec text
  have h50 : (pyStrip fiftyCharText).length = 50 := by
    show (pyStripData (List.replicate 50 'a')).length = 50
    rw [pyStripData_replicate 50 'a' (by decide)]
    exact List.length_replicate 50 'a'
  have h100k : (pyStrip hundredThousandCharText).length = 100000 := by
    show (pyStripData (List.replicate 100000 'a')).length = 100000
    rw [pyStripData_replicate 100000 'a' (by decide)]
    exact List.length_replicate 100000 'a'
  refine ⟨hv, he, hw, ?_, ?_, ?_⟩
  · have h := (validate_text_spec fiftyCharText).1
    rw [h50] at h
    exact h.mpr (Or.inl (by omega))
  · have h := (validate_text_spec hundredThousandCharText).1
    rw [h100k] at h
    have hnot : ¬ ((validate_text hundredThousandCharText).valid = false) := by
      rw [h]; omega
    cases hb : (validate_text hundredThousandCharText).valid <;> simp_all
  · have h := (validate_text_spec hundredThousandCharText).2.1
    rw [h100k] at h
    exact h.mpr (by omega)

/-- A stripped response that begins with `[` and ends with `]` passes through
the completion-service textual clean-up unchanged. -/
theorem apiJsonCandidate_of_array (response : String)
    (hs : pyStrip response = response)
    (hh : response.data.head? = some '[')
    (hl : response.data.getLast? = some ']') :
    apiJsonCandidate response = response := by
  obtain ⟨t, ht⟩ : ∃ t, response.data = '[' :: t := by
    cases hd : response.data with
    | nil => rw [hd] at hh; simp at hh
    | cons c cs =>
      rw [hd] at hh
      cases hh
      exact ⟨cs, rfl⟩
  obtain ⟨rt, hrt⟩ : ∃ rt, response.data.reverse = ']' :: rt := by
    cases hd : response.data.reverse with
    | nil =>
      rw [← List.head?_reverse, hd] at hl
      simp at hl
    | cons c cs =>
      rw [← List.head?_reverse, hd] at hl
      cases hl
      exact ⟨cs, rfl⟩
  have hsw : pyStartsWith response "```json" = false := by
    unfold pyStartsWith
    apply decide_eq_false
    intro hcontra
    rw [ht] at hcontra
    have hcontra2 : ('[' : Char) :: t.take 6 = "```json".data := hcontra
    simp at hcontra2
  have hew : pyEndsWith response "```" = false := by
    unfold pyEndsWith
    apply decide_eq_false
    intro hcontra
    rw [hrt] at hcontra
    have hcontra2 : (']' : Char) :: rt.take 2 = "```".data.reverse := hcontra
    simp at hcontra2
  unfold apiJsonCandidate
  rw [hs]
  simp [hsw, hew]

/-- A stripped response that begins with `[` and ends with `]` is extracted
whole by the hosted-inference bracket search. -/
theorem hfJsonCandidate_of_array (response : String)
    (hs : pyStrip response = response)
    (hh : response.data.head? = some '[')
    (hl : response.data.getLast? = some ']') :
    hfJsonCandidate response = response := by
  obtain ⟨t, ht⟩ : ∃ t, response.data = '[' :: t := by
    cases hd : response.data with
    | nil => rw [hd] at hh; simp at hh
    | cons c cs =>
      rw [hd] at hh
      cases hh
      exact ⟨cs, rfl⟩
  obtain ⟨rt, hrt⟩ : ∃ rt, response.data.reverse = ']' :: rt := by
    cases hd : response.data.reverse with
    | nil =>
      rw [← List.head?_reverse, hd] at hl
      simp at hl
    | cons c cs =>
      rw [← List.head?_reverse, hd] at hl
      cases hl
      exact ⟨cs, rfl⟩
  have hmem : (']' : Char) ∈ response.data := by
    rw [← List.mem_reverse, hrt]
    exact List.mem_cons_self _ _
  have hc1 : pyContainsChar response '[' = true := by
    unfold pyContainsChar
    rw [ht]
    simp
  have hc2 : pyContainsChar response ']' = true :=
    List.elem_eq_true_of_mem hmem
  have hfi : pyFindIdx response '[' = 0 := by
    unfold pyFindIdx
    rw [ht]
    simp [List.findIdx_cons]
  have hri : pyRFindIdx response ']' = response.data.length - 1 := by
    unfold pyRFindIdx
    rw [hrt]
    simp [List.findIdx_cons]
  have hpos : 0 < response.data.length := by
    rw [ht]
    simp
  unfold hfJsonCandidate
  rw [hs]
  dsimp only
  rw [hc1, hc2]
  simp only [Bool.and_self, if_true]
  rw [hfi, hri]
  unfold pySlice
  have harith : response.data.length - 1 + 1 - 0 = response.data.length := by omega
  rw [harith, List.drop_zero, List.take_length]

/-- C7: for every raw response text that is exactly the serialization of a
well-formed JSON array — characterized by: stripping is the identity, the text
begins with `[` and ends with `]`, and the JSON library decodes it to that
array — both parsing pipelines return exactly the decoded array (hence a
sequence of equal length, element-for-element equal). -/
theorem C7_parser_preserves_arrays (loads : String → Option Value)
    (response : String) (elems : List Value)
    (hs : pyStrip response = response)
    (hh : response.data.head? = some '[')
    (hl : response.data.getLast? = some ']')
    (hdec : loads response = some (Value.list elems)) :
    generate_mcqs_with_api loads response = Except.ok elems ∧
    ∀ text d n, generate_mcqs_with_hf loads response text d n = elems := by
  constructor
  · unfold generate_mcqs_with_api
    rw [apiJsonCandidate_of_array response hs hh hl, hdec]
  · intro text d n
    unfold generate_mcqs_with_hf
    rw [hfJsonCandidate_of_array response hs hh hl, hdec]

/-- Witness for C7 at the serialized empty array. -/
theorem C7_parser_preserves_arrays_witness :
    generate_mcqs_with_api loadsEmptyArr "[]" = Except.ok [] ∧
    generate_mcqs_with_hf loadsEmptyArr "[]" sampleText "easy" 1 = [] := by
  have h := C7_parser_preserves_arrays loadsEmptyArr "[]" [] rfl rfl rfl rfl
  exact ⟨h.1, h.2 sampleText "easy" 1⟩

/-- C6 counterexample: a request with `numQuestions = 25` is not stopped
before the backend call — the completion-service orchestration builds and
issues the backend request anyway, refuting the claim that the pipeline never
reaches the backend client for out-of-range counts. -/
theorem C6_counterexample_backend_reached :
    (api_main_backend_request sampleText "easy" "25" "llama2").isSome = true := rfl

/-- C6 (amended): the input gate function (`validate_workflow_inputs`) does
mark every request whose questions-count is outside [1, 20] or whose
difficulty is not one of easy, medium, hard as invalid; but the
completion-service orchestration (`main` of `generate_mcqs_api.py`, embedded
as `api_main_backend_request`) never invokes the gate, so such a request still
reaches the backend client whenever the extracted text is nonempty and the
count parses as an integer. -/
theorem C6_amended_gate_not_wired :
    (∀ (f d nq : String) (n : Int), pyInt nq = some n →
      (n < 1 ∨ 20 < n ∨ valid_difficulties.contains d = false) →
      (validate_workflow_inputs f d nq).valid = false) ∧
    (∀ (text d nq model : String) (n : Int), pyStrip text ≠ "" → pyInt nq = some n →
      api_main_backend_request text d nq model
        = some { model := model, prompt := create_mcq_prompt text d n }) := by
  constructor
  · intro f d nq n hparse hbad
    unfold validate_workflow_inputs
    rw [hparse]
    dsimp only
    split_ifs <;> simp_all <;> omega
  · intro text d nq model n htext hparse
    simp [api_main_backend_request, hparse, htext]

/-- Witness for C6's amended theorem at `numQuestions = 25`. -/
theorem C6_amended_gate_not_wired_witness :
    (validate_workflow_inputs "lecture.pdf" "easy" "25").valid = false ∧
    api_main_backend_request sampleText "easy" "25" "llama2"
      = some { model := "llama2", prompt := create_mcq_prompt sampleText "easy" 25 } :=
  ⟨C6_amended_gate_not_wired.1 "lecture.pdf" "easy" "25" 25 rfl
      (Or.inr (Or.inl (by norm_num))),
    C6_amended_gate_not_wired.2 sampleText "easy" "25" "llama2" 25 (by decide) rfl⟩

end Quizzer
